import Mathlib

/-
Verification of the 8plex underwriting calculation engine.

The development shallowly embeds the engine's TypeScript source in Lean 4:

* `FinanceModel` embeds `src/model/financeModel.ts`.  That file contains two
  successive versions of the module concatenated; the second (final) version
  is embedded as `calculateMetrics`, and the superseded first version (whose
  operating-expense handling differs) as `calculateMetricsV1`.  JavaScript
  numbers are modelled as exact rationals (`ℚ`); the JS exponentiation
  operator is modelled by `powQ`, which is exact for integer exponents (the
  only exponents the theorems exercise).
* `AppLayer` embeds the expense-label normalisation, the percent-expense
  derivation, the percent-to-dollar reconciliation effect of `src/App.tsx`,
  and the sensitivity-matrix builder of the application component.
* `JsModel` embeds the same calculator over `JsNum`, a model of JavaScript
  numbers with the IEEE special values `NaN` and `±Infinity` (finite values
  are exact rationals; overflow is not modelled).  It is used for the claims
  about NaN/Infinity propagation.
-/

namespace FinanceModel

/-- Lower-case a string character by character (models
`String.prototype.toLowerCase` on the ASCII labels used by the engine). -/
def toLowerStr (s : String) : String := ⟨s.data.map Char.toLower⟩

/-- Substring containment on character lists (models
`String.prototype.includes`). -/
def containsSubList : List Char → List Char → Bool
  | [], needle => needle.isEmpty
  | c :: t, needle => needle.isPrefixOf (c :: t) || containsSubList t needle

/-- `jsIncludes s sub` models `s.includes(sub)` in JavaScript. -/
def jsIncludes (s sub : String) : Bool := containsSubList s.data sub.data

/-- One rent-roll line (`UnitAssumption` in `financeModel.ts`). -/
structure UnitAssumption where
  name : String
  units : ℚ
  rent : ℚ
  bedrooms : ℚ

/-- A secondary monthly income line (`OtherIncomeItem`). -/
structure OtherIncomeItem where
  name : String
  units : ℚ
  usage : ℚ
  monthlyAmount : ℚ

/-- The assumption record (`Assumptions`).  Fields that the calculator reads
through the nullish-coalescing operator `??` are modelled as `Option ℚ`, so
the theorems also cover partially specified records; the ordered expense map
`Record<string, number>` is modelled as an association list in insertion
order. -/
structure Assumptions where
  purchasePrice : Option ℚ
  brokerFee : Option ℚ
  depositPct : Option ℚ
  depositAmount : Option ℚ
  closingRebate : ℚ
  contingencyPct : Option ℚ
  operatingExpenseTotal : Option ℚ
  operatingExpenses : Option (List (String × ℚ))
  unitMix : Option (List UnitAssumption)
  otherIncomeItems : Option (List OtherIncomeItem)
  interestRate : Option ℚ
  amortYears : Option ℚ
  loanAmount : Option ℚ
  cmhcPremiumRate : Option ℚ
  loanToValue : Option ℚ

/-- The metrics record returned by the final `calculateMetrics`. -/
structure FinanceMetrics where
  noi : ℚ
  noiYear1 : ℚ
  cashFlow : ℚ
  cashOnCash : ℚ
  dscr : ℚ
  capRate : ℚ
  grossRentAnnual : ℚ
  otherIncomeAnnual : ℚ
  operatingExpensesAnnual : ℚ
  operatingExpensesYear1 : ℚ
  totalIncomeAnnual : ℚ
  debtServiceAnnual : ℚ
  monthlyDebtService : ℚ
  equityRequired : ℚ
  loanAmountEffective : ℚ

/-- The metrics record returned by the superseded first `calculateMetrics`. -/
structure FinanceMetricsV1 where
  noi : ℚ
  cashFlow : ℚ
  cashOnCash : ℚ
  dscr : ℚ
  capRate : ℚ
  grossRentAnnual : ℚ
  otherIncomeAnnual : ℚ
  operatingExpensesAnnual : ℚ
  totalIncomeAnnual : ℚ
  debtServiceAnnual : ℚ
  monthlyDebtService : ℚ
  equityRequired : ℚ
  loanAmountEffective : ℚ

/-- One point of the flat monthly projection (`MonthlyCashFlowPoint`). -/
structure MonthlyCashFlowPoint where
  monthIndex : ℕ
  cashFlow : ℚ

/-- `clamp` from `financeModel.ts`: `Math.min(Math.max(value, min), max)`. -/
def clamp (value lo hi : ℚ) : ℚ := min (max value lo) hi

/-- Model of the JS exponentiation `b ** e` for the rational embedding.  It
is exact whenever the exponent is an integer, which covers every use in this
development (`periods = amortYears × 12` with whole amortization years); a
non-integer exponent, whose JS value is generally irrational, falls outside
the rational model and is mapped to 0. -/
def powQ (b e : ℚ) : ℚ :=
  if e.den = 1 then
    if 0 ≤ e.num then b ^ e.num.toNat else (b ^ e.num.natAbs)⁻¹
  else 0

/-- The amortizing-payment function `pmt` of `financeModel.ts`. -/
def pmt (rate periods principal : ℚ) : ℚ :=
  if periods ≤ 0 ∨ principal ≤ 0 then 0
  else if rate = 0 then principal / periods
  else
    (principal * rate * powQ (1 + rate) periods) / (powQ (1 + rate) periods - 1)

/-- `sumOperatingExpenses` of `financeModel.ts`: sum of the expense map's
values in insertion order, 0 for a missing map. -/
def sumOperatingExpenses : Option (List (String × ℚ)) → ℚ
  | none => 0
  | some expenses => expenses.foldl (fun sum kv => sum + kv.2) 0

/-- The predicate that identifies the management/salaries expense entry in
the final `calculateMetrics`: the lower-cased key includes `"management"` or
`"salaries"`. -/
def isManagementKey (key : String) : Bool :=
  jsIncludes (toLowerStr key) "management" || jsIncludes (toLowerStr key) "salaries"

/-- The final (second) `calculateMetrics` of `financeModel.ts`, lines
249-344.  The block that builds `operatingExpensesCopy` and rescales a
sub-1 vacancy entry mutates only that copy, which no later line reads, so
it is omitted here as dead code.  `operatingExpenses[managementKey]` is read
through the pair returned by the key search, and the explicit
`operatingExpenseTotal` override of the first version is commented out in
this version's source. -/
def calculateMetrics (a : Assumptions) : FinanceMetrics :=
  let purchasePrice := a.purchasePrice.getD 0
  let brokerFee := a.brokerFee.getD 0
  let loanToValueRaw := a.loanToValue.getD (1 - a.depositPct.getD 0)
  let loanToValue := clamp loanToValueRaw 0 1
  let depositPct := clamp (a.depositPct.getD (1 - loanToValue)) 0 1
  let unitMix := a.unitMix.getD []
  let otherIncomeItems := a.otherIncomeItems.getD []
  let operatingExpenses := a.operatingExpenses.getD []
  let grossRentMonthly := unitMix.foldl (fun sum unit => sum + unit.units * unit.rent) 0
  let grossRentAnnual := grossRentMonthly * 12
  let otherIncomeMonthly :=
    otherIncomeItems.foldl (fun sum item => sum + item.units * item.usage * item.monthlyAmount) 0
  let totalIncomeAnnual := grossRentAnnual + otherIncomeMonthly * 12
  let totalOpexOngoing := sumOperatingExpenses (some operatingExpenses)
  let managementAmount :=
    match operatingExpenses.find? (fun kv => isManagementKey kv.1) with
    | some kv => kv.2
    | none => 0
  let totalOpexYear1 := totalOpexOngoing - managementAmount
  let noiYear1 := totalIncomeAnnual - totalOpexYear1
  let noiOngoing := totalIncomeAnnual - totalOpexOngoing
  let equityRequired := (purchasePrice + brokerFee) * depositPct
  let inferredLoanAmount := a.loanAmount.getD (purchasePrice + brokerFee - equityRequired)
  let loanAmountEffective := max inferredLoanAmount 0
  let interestRate := a.interestRate.getD 0
  let amortYears := a.amortYears.getD 0
  let periods := amortYears * 12
  let monthlyRate := interestRate / 12
  let principalWithPremium := loanAmountEffective * (1 + a.cmhcPremiumRate.getD 0)
  let monthlyDebtService := pmt monthlyRate periods principalWithPremium
  let debtServiceAnnual := monthlyDebtService * 12
  let cashFlow := noiOngoing - debtServiceAnnual
  let cashOnCash := if equityRequired > 0 then cashFlow / equityRequired else 0
  let dscr := if debtServiceAnnual > 0 then noiOngoing / debtServiceAnnual else 0
  let capRate := if purchasePrice > 0 then noiYear1 / purchasePrice else 0
  { noi := noiYear1
    noiYear1 := noiYear1
    cashFlow := cashFlow
    cashOnCash := cashOnCash
    dscr := dscr
    capRate := capRate
    grossRentAnnual := grossRentAnnual
    otherIncomeAnnual := otherIncomeMonthly * 12
    operatingExpensesAnnual := totalOpexOngoing
    operatingExpensesYear1 := totalOpexYear1
    totalIncomeAnnual := totalIncomeAnnual
    debtServiceAnnual := debtServiceAnnual
    monthlyDebtService := monthlyDebtService
    equityRequired := equityRequired
    loanAmountEffective := loanAmountEffective }

/-- The superseded first `calculateMetrics` of `financeModel.ts`, lines
87-139: a single NOI value, and the positive explicit
`operatingExpenseTotal` is used as an override of the summed map. -/
def calculateMetricsV1 (a : Assumptions) : FinanceMetricsV1 :=
  let purchasePrice := a.purchasePrice.getD 0
  let brokerFee := a.brokerFee.getD 0
  let loanToValueRaw := a.loanToValue.getD (1 - a.depositPct.getD 0)
  let loanToValue := clamp loanToValueRaw 0 1
  let depositPct := clamp (a.depositPct.getD (1 - loanToValue)) 0 1
  let unitMix := a.unitMix.getD []
  let otherIncomeItems := a.otherIncomeItems.getD []
  let operatingExpenses := a.operatingExpenses.getD []
  let grossRentMonthly := unitMix.foldl (fun sum unit => sum + unit.units * unit.rent) 0
  let otherIncomeMonthly :=
    otherIncomeItems.foldl (fun sum item => sum + item.units * item.usage * item.monthlyAmount) 0
  let totalIncomeAnnual := (grossRentMonthly + otherIncomeMonthly) * 12
  let operatingExpenseTotal :=
    a.operatingExpenseTotal.getD (sumOperatingExpenses (some operatingExpenses))
  let operatingExpensesAnnual :=
    if operatingExpenseTotal > 0 then operatingExpenseTotal
    else sumOperatingExpenses (some operatingExpenses)
  let noi := totalIncomeAnnual - operatingExpensesAnnual
  let equityRequired := (purchasePrice + brokerFee) * depositPct
  let inferredLoanAmount := a.loanAmount.getD (purchasePrice + brokerFee - equityRequired)
  let loanAmountEffective := max inferredLoanAmount 0
  let interestRate := a.interestRate.getD 0
  let amortYears := a.amortYears.getD 0
  let periods := amortYears * 12
  let monthlyRate := interestRate / 12
  let principalWithPremium := loanAmountEffective * (1 + a.cmhcPremiumRate.getD 0)
  let monthlyDebtService := pmt monthlyRate periods principalWithPremium
  let debtServiceAnnual := monthlyDebtService * 12
  let cashFlow := noi - debtServiceAnnual
  let cashOnCash := if equityRequired > 0 then cashFlow / equityRequired else 0
  let dscr := if debtServiceAnnual > 0 then noi / debtServiceAnnual else 0
  let capRate := if purchasePrice > 0 then noi / purchasePrice else 0
  { noi := noi
    cashFlow := cashFlow
    cashOnCash := cashOnCash
    dscr := dscr
    capRate := capRate
    grossRentAnnual := grossRentMonthly * 12
    otherIncomeAnnual := otherIncomeMonthly * 12
    operatingExpensesAnnual := operatingExpensesAnnual
    totalIncomeAnnual := totalIncomeAnnual
    debtServiceAnnual := debtServiceAnnual
    monthlyDebtService := monthlyDebtService
    equityRequired := equityRequired
    loanAmountEffective := loanAmountEffective }

/-- `projectMonthlyCashFlows` of `financeModel.ts`: one metrics snapshot,
its annual components divided by 12 and netted, repeated for months 1-12. -/
def projectMonthlyCashFlows (a : Assumptions) : List MonthlyCashFlowPoint :=
  let metrics := calculateMetrics a
  let rentMonthly := metrics.grossRentAnnual / 12
  let otherIncomeMonthly := metrics.otherIncomeAnnual / 12
  let opexMonthly := metrics.operatingExpensesAnnual / 12
  let debtMonthly := metrics.debtServiceAnnual / 12
  let cashFlowMonthly := rentMonthly + otherIncomeMonthly - opexMonthly - debtMonthly
  (List.range 12).map (fun index => { monthIndex := index + 1, cashFlow := cashFlowMonthly })

end FinanceModel

namespace AppLayer

open FinanceModel

/-- Whitespace class used by the label regexes (`\s`) and `trim`; the labels
the application manipulates only ever contain plain spaces. -/
def isWsChar (c : Char) : Bool := c == ' ' || c == '\t' || c == '\n' || c == '\r'

/-- Matcher for the tail of the pattern `@\s*\d+%` (everything after the
`@`): optional whitespace, at least one digit, then `%`.  Returns the
remaining characters on success.  The regex has no productive backtracking
here, because `\s` and `\d` are disjoint and `\d` and `%` are disjoint. -/
def matchAtPercentTail (l : List Char) : Option (List Char) :=
  let afterWs := l.dropWhile isWsChar
  let digits := afterWs.takeWhile Char.isDigit
  if digits.isEmpty then none
  else
    match afterWs.dropWhile Char.isDigit with
    | '%' :: rest => some rest
    | _ => none

/-- Global replacement of `@\s*\d+%` by the empty string (the first
`replace` of `sanitizeExpenseLabel`), written with an explicit character
budget so the recursion is structural. -/
def stripAtPercentAux : ℕ → List Char → List Char
  | 0, l => l
  | _ + 1, [] => []
  | fuel + 1, c :: rest =>
    if c == '@' then
      match matchAtPercentTail rest with
      | some rest2 => stripAtPercentAux fuel rest2
      | none => c :: stripAtPercentAux fuel rest
    else c :: stripAtPercentAux fuel rest

/-- See `stripAtPercentAux`. -/
def stripAtPercent (l : List Char) : List Char := stripAtPercentAux l.length l

/-- Replacement of the end-anchored `\s+\d+%$` by the empty string (the
second `replace` of `sanitizeExpenseLabel`): working from the end, a `%`
preceded by at least one digit preceded by at least one whitespace
character is removed together with that whitespace run. -/
def stripTrailingPercent (l : List Char) : List Char :=
  match l.reverse with
  | '%' :: rest =>
    let digits := rest.takeWhile Char.isDigit
    if digits.isEmpty then l
    else
      let afterDigits := rest.dropWhile Char.isDigit
      let ws := afterDigits.takeWhile isWsChar
      if ws.isEmpty then l else (afterDigits.dropWhile isWsChar).reverse
  | _ => l

/-- Global replacement of `\s{2,}` by a single space (the third `replace`
of `sanitizeExpenseLabel`): every run of two or more whitespace characters
collapses to one space; a lone whitespace character is left as it is. -/
def collapseWsAux : ℕ → List Char → List Char
  | 0, l => l
  | _ + 1, [] => []
  | _ + 1, [c] => [c]
  | fuel + 1, c1 :: c2 :: rest =>
    if isWsChar c1 && isWsChar c2 then collapseWsAux fuel (' ' :: rest)
    else c1 :: collapseWsAux fuel (c2 :: rest)

/-- See `collapseWsAux`. -/
def collapseWs (l : List Char) : List Char := collapseWsAux l.length l

/-- `String.prototype.trim`: strip whitespace from both ends. -/
def trimWs (l : List Char) : List Char :=
  ((l.dropWhile isWsChar).reverse.dropWhile isWsChar).reverse

/-- `sanitizeExpenseLabel` of `App.tsx`: strip `@N%` annotations, strip a
trailing ` N%`, collapse runs of whitespace, and trim. -/
def sanitizeExpenseLabel (label : String) : String :=
  ⟨trimWs (collapseWs (stripTrailingPercent (stripAtPercent label.data)))⟩

/-- `normalizeExpenseLabel` of `App.tsx`: sanitize, then lower-case. -/
def normalizeExpenseLabel (label : String) : String :=
  toLowerStr (sanitizeExpenseLabel label)

/-- The fixed set of percent-denominated expense categories
(`percentageExpenseLabels` in `App.tsx`). -/
def percentageExpenseLabels : List String :=
  ["vacancy and bad debt", "management & salaries"]

/-- `computeGrossRentAnnual` of `App.tsx`. -/
def computeGrossRentAnnual (a : Assumptions) : ℚ :=
  let unitMix := a.unitMix.getD []
  let monthlyRent := unitMix.foldl (fun sum unit => sum + unit.units * unit.rent) 0
  monthlyRent * 12

/-- Assignment `record[key] = value` on a JS object modelled as an
insertion-ordered association list: an existing key keeps its position and
gets the new value, a fresh key is appended. -/
def recordSet (m : List (String × ℚ)) (k : String) (v : ℚ) : List (String × ℚ) :=
  if m.any (fun kv => kv.1 == k) then m.map (fun kv => if kv.1 == k then (k, v) else kv)
  else m ++ [(k, v)]

/-- `derivePercentExpenseValues` of `App.tsx`: for each expense entry whose
normalized label is a percent category, record
`(amount / annual gross rent) × 100` under the normalized label; empty when
gross rent is not positive.  The `Number.isFinite` guard of the source
cannot fail in the rational model. -/
def derivePercentExpenseValues (source : Assumptions) : List (String × ℚ) :=
  let grossRentAnnual := computeGrossRentAnnual source
  if grossRentAnnual ≤ 0 then []
  else
    (source.operatingExpenses.getD []).foldl
      (fun result kv =>
        let normalized := normalizeExpenseLabel kv.1
        if percentageExpenseLabels.contains normalized then
          recordSet result normalized (kv.2 / grossRentAnnual * 100)
        else result)
      []

/-- The percent-to-dollar reconciliation effect of `App.tsx` (the
`useEffect` at lines 680-716), restricted to its action on the expense map:
for each `(normalized label, percent)` entry, the first expense key whose
normalization matches is rewritten to `percent / 100 × gross rent` when the
change exceeds the absolute threshold 0.5; the returned flag is the
source's `changed` variable.  The effect is a no-op when the percent map is
empty or gross rent is not positive. -/
def reconcileDollarsFromPercentages (expenses : List (String × ℚ)) (grossRentAnnual : ℚ)
    (percentMap : List (String × ℚ)) : List (String × ℚ) × Bool :=
  if percentMap.isEmpty || decide (grossRentAnnual ≤ 0) then (expenses, false)
  else
    percentMap.foldl
      (fun acc entry =>
        match acc.1.find? (fun kv => normalizeExpenseLabel kv.1 == entry.1) with
        | none => acc
        | some kv =>
          let nextValue := entry.2 / 100 * grossRentAnnual
          if |kv.2 - nextValue| > 1 / 2 then (recordSet acc.1 kv.1 nextValue, true) else acc)
      (expenses, false)

/-- `sensitivityAxisCount` of the application component: the fixed odd
grid size. -/
def sensitivityAxisCount : ℕ := 5

/-- The rent shock vector: `(index − ⌊N/2⌋) × (rentStepPercent / 100)`. -/
def rentShifts (rentStepPercent : ℚ) : List ℚ :=
  let half := sensitivityAxisCount / 2
  (List.range sensitivityAxisCount).map
    (fun index => ((index : ℚ) - (half : ℚ)) * (rentStepPercent / 100))

/-- The interest shock vector: `(index − ⌊N/2⌋) × (interestStepBps / 10000)`. -/
def interestShifts (interestStepBps : ℚ) : List ℚ :=
  let half := sensitivityAxisCount / 2
  (List.range sensitivityAxisCount).map
    (fun index => ((index : ℚ) - (half : ℚ)) * (interestStepBps / 10000))

/-- `baselineGrossRentMonthly` of the application component. -/
def baselineGrossRentMonthly (a : Assumptions) : ℚ :=
  (a.unitMix.getD []).foldl (fun sum unit => sum + unit.units * unit.rent) 0

/-- `buildSensitivityMatrix` of the application component: for every
(interest shift, rent shift) pair, scale every unit's rent by
`1 + rentDelta` (only when the baseline monthly gross rent is positive),
shift the interest rate by `interestDelta`, run the calculator, and record
the selected metric at `[interestIndex][rentIndex]`. -/
def buildSensitivityMatrix (a : Assumptions) (rentStepPercent interestStepBps : ℚ)
    (valueSelector : FinanceMetrics → ℚ) : List (List ℚ) :=
  (interestShifts interestStepBps).map
    (fun interestDelta =>
      (rentShifts rentStepPercent).map
        (fun rentDelta =>
          let grossRentScale := if baselineGrossRentMonthly a > 0 then 1 + rentDelta else 1
          let scaledUnitMix :=
            (a.unitMix.getD []).map (fun unit => { unit with rent := unit.rent * grossRentScale })
          let scenarioAssumptions :=
            { a with
              interestRate := some (a.interestRate.getD 0 + interestDelta)
              unitMix := some scaledUnitMix }
          valueSelector (calculateMetrics scenarioAssumptions)))

end AppLayer

namespace JsModel

/-- A JavaScript number: either a finite value (modelled as an exact
rational; overflow and rounding of the 64-bit format are not modelled) or
one of the IEEE special values `NaN`, `Infinity`, `-Infinity`.  The signed
zero distinction is not modelled; `0` stands for `+0`. -/
inductive JsNum where
  | nan : JsNum
  | inf : JsNum
  | ninf : JsNum
  | fin : ℚ → JsNum
deriving DecidableEq

namespace JsNum

/-- JS addition with the IEEE special values. -/
def add : JsNum → JsNum → JsNum
  | nan, _ => nan
  | _, nan => nan
  | inf, ninf => nan
  | ninf, inf => nan
  | inf, _ => inf
  | _, inf => inf
  | ninf, _ => ninf
  | _, ninf => ninf
  | fin a, fin b => fin (a + b)

/-- JS negation. -/
def neg : JsNum → JsNum
  | nan => nan
  | inf => ninf
  | ninf => inf
  | fin a => fin (-a)

/-- JS subtraction. -/
def sub (a b : JsNum) : JsNum := add a (neg b)

/-- JS multiplication with the IEEE special values. -/
def mul : JsNum → JsNum → JsNum
  | nan, _ => nan
  | _, nan => nan
  | inf, inf => inf
  | inf, ninf => ninf
  | ninf, inf => ninf
  | ninf, ninf => inf
  | inf, fin b => if b = 0 then nan else if 0 < b then inf else ninf
  | fin a, inf => if a = 0 then nan else if 0 < a then inf else ninf
  | ninf, fin b => if b = 0 then nan else if 0 < b then ninf else inf
  | fin a, ninf => if a = 0 then nan else if 0 < a then ninf else inf
  | fin a, fin b => fin (a * b)

/-- JS division with the IEEE special values; a finite value divided by
zero gives a signed infinity (`0/0` gives `NaN`). -/
def div : JsNum → JsNum → JsNum
  | nan, _ => nan
  | _, nan => nan
  | inf, inf => nan
  | inf, ninf => nan
  | ninf, inf => nan
  | ninf, ninf => nan
  | inf, fin b => if 0 ≤ b then inf else ninf
  | ninf, fin b => if 0 ≤ b then ninf else inf
  | fin _, inf => fin 0
  | fin _, ninf => fin 0
  | fin a, fin b =>
    if b = 0 then (if a = 0 then nan else if 0 < a then inf else ninf)
    else fin (a / b)

/-- The JS comparison `a < b`; any comparison involving `NaN` is false. -/
def ltJ : JsNum → JsNum → Bool
  | nan, _ => false
  | _, nan => false
  | ninf, ninf => false
  | ninf, _ => true
  | _, ninf => false
  | inf, _ => false
  | _, inf => true
  | fin a, fin b => decide (a < b)

/-- The JS comparison `a <= b`; any comparison involving `NaN` is false. -/
def leJ : JsNum → JsNum → Bool
  | nan, _ => false
  | _, nan => false
  | ninf, _ => true
  | _, ninf => false
  | _, inf => true
  | inf, _ => false
  | fin a, fin b => decide (a ≤ b)

/-- The JS comparison `a > b`. -/
def gtJ (a b : JsNum) : Bool := ltJ b a

/-- `Math.max`: propagates `NaN`. -/
def maxJ : JsNum → JsNum → JsNum
  | nan, _ => nan
  | _, nan => nan
  | inf, _ => inf
  | _, inf => inf
  | ninf, b => b
  | a, ninf => a
  | fin a, fin b => fin (max a b)

/-- `Math.min`: propagates `NaN`. -/
def minJ : JsNum → JsNum → JsNum
  | nan, _ => nan
  | _, nan => nan
  | ninf, _ => ninf
  | _, ninf => ninf
  | inf, b => b
  | a, inf => a
  | fin a, fin b => fin (min a b)

/-- `clamp` of `financeModel.ts` over JS numbers. -/
def clampJ (value lo hi : JsNum) : JsNum := minJ (maxJ value lo) hi

/-- The JS exponentiation `b ** e` over the model.  A zero exponent gives 1;
a `NaN` exponent gives `NaN`; integer exponents of finite bases are exact;
a finite non-integer exponent of a positive finite base, whose JS value is
generally irrational, falls outside the rational model and is mapped to
`NaN` (no theorem exercises that case; JS itself returns `NaN` there for a
negative base). -/
def powJ : JsNum → JsNum → JsNum
  | _, nan => nan
  | b, inf =>
    match b with
    | nan => nan
    | inf => inf
    | ninf => inf
    | fin a => if a = 1 ∨ a = -1 then nan else if 1 < |a| then inf else fin 0
  | b, ninf =>
    match b with
    | nan => nan
    | inf => fin 0
    | ninf => fin 0
    | fin a => if a = 1 ∨ a = -1 then nan else if 1 < |a| then fin 0 else inf
  | b, fin q =>
    if q = 0 then fin 1
    else
      match b with
      | nan => nan
      | inf => if 0 < q then inf else fin 0
      | ninf =>
        if 0 < q then (if q.den = 1 ∧ q.num % 2 = 1 then ninf else inf) else fin 0
      | fin a =>
        if q.den = 1 then
          if 0 ≤ q.num then fin (a ^ q.num.toNat)
          else if a = 0 then inf else fin ((a ^ q.num.natAbs)⁻¹)
        else nan

/-- Whether a JS number is a finite value (`Number.isFinite`). -/
def isFiniteJ : JsNum → Bool
  | fin _ => true
  | _ => false

end JsNum

open JsNum

/-- One rent-roll line over JS numbers. -/
structure UnitAssumptionJ where
  name : String
  units : JsNum
  rent : JsNum
  bedrooms : JsNum

/-- A secondary income line over JS numbers. -/
structure OtherIncomeItemJ where
  name : String
  units : JsNum
  usage : JsNum
  monthlyAmount : JsNum

/-- The assumption record over JS numbers. -/
structure AssumptionsJ where
  purchasePrice : Option JsNum
  brokerFee : Option JsNum
  depositPct : Option JsNum
  depositAmount : Option JsNum
  closingRebate : JsNum
  contingencyPct : Option JsNum
  operatingExpenseTotal : Option JsNum
  operatingExpenses : Option (List (String × JsNum))
  unitMix : Option (List UnitAssumptionJ)
  otherIncomeItems : Option (List OtherIncomeItemJ)
  interestRate : Option JsNum
  amortYears : Option JsNum
  loanAmount : Option JsNum
  cmhcPremiumRate : Option JsNum
  loanToValue : Option JsNum

/-- The metrics record over JS numbers. -/
structure FinanceMetricsJ where
  noi : JsNum
  noiYear1 : JsNum
  cashFlow : JsNum
  cashOnCash : JsNum
  dscr : JsNum
  capRate : JsNum
  grossRentAnnual : JsNum
  otherIncomeAnnual : JsNum
  operatingExpensesAnnual : JsNum
  operatingExpensesYear1 : JsNum
  totalIncomeAnnual : JsNum
  debtServiceAnnual : JsNum
  monthlyDebtService : JsNum
  equityRequired : JsNum
  loanAmountEffective : JsNum

/-- `pmt` of `financeModel.ts` over JS numbers; the `rate === 0` test is JS
strict equality, which is false for `NaN`. -/
def pmtJ (rate periods principal : JsNum) : JsNum :=
  if leJ periods (fin 0) || leJ principal (fin 0) then fin 0
  else if rate = fin 0 then div principal periods
  else
    let factor := powJ (add (fin 1) rate) periods
    div (mul (mul principal rate) factor) (sub factor (fin 1))

/-- `sumOperatingExpenses` over JS numbers. -/
def sumOperatingExpensesJ : Option (List (String × JsNum)) → JsNum
  | none => fin 0
  | some expenses => expenses.foldl (fun sum kv => add sum kv.2) (fin 0)

/-- The final `calculateMetrics` of `financeModel.ts` over JS numbers,
mirroring `FinanceModel.calculateMetrics` line by line (the dead
`operatingExpensesCopy` block is again omitted). -/
def calculateMetricsJ (a : AssumptionsJ) : FinanceMetricsJ :=
  let purchasePrice := a.purchasePrice.getD (fin 0)
  let brokerFee := a.brokerFee.getD (fin 0)
  let loanToValueRaw := a.loanToValue.getD (sub (fin 1) (a.depositPct.getD (fin 0)))
  let loanToValue := clampJ loanToValueRaw (fin 0) (fin 1)
  let depositPct := clampJ (a.depositPct.getD (sub (fin 1) loanToValue)) (fin 0) (fin 1)
  let unitMix := a.unitMix.getD []
  let otherIncomeItems := a.otherIncomeItems.getD []
  let operatingExpenses := a.operatingExpenses.getD []
  let grossRentMonthly :=
    unitMix.foldl (fun sum unit => add sum (mul unit.units unit.rent)) (fin 0)
  let grossRentAnnual := mul grossRentMonthly (fin 12)
  let otherIncomeMonthly :=
    otherIncomeItems.foldl
      (fun sum item => add sum (mul (mul item.units item.usage) item.monthlyAmount)) (fin 0)
  let totalIncomeAnnual := add grossRentAnnual (mul otherIncomeMonthly (fin 12))
  let totalOpexOngoing := sumOperatingExpensesJ (some operatingExpenses)
  let managementAmount :=
    match operatingExpenses.find? (fun kv => FinanceModel.isManagementKey kv.1) with
    | some kv => kv.2
    | none => fin 0
  let totalOpexYear1 := sub totalOpexOngoing managementAmount
  let noiYear1 := sub totalIncomeAnnual totalOpexYear1
  let noiOngoing := sub totalIncomeAnnual totalOpexOngoing
  let equityRequired := mul (add purchasePrice brokerFee) depositPct
  let inferredLoanAmount :=
    a.loanAmount.getD (sub (add purchasePrice brokerFee) equityRequired)
  let loanAmountEffective := maxJ inferredLoanAmount (fin 0)
  let interestRate := a.interestRate.getD (fin 0)
  let amortYears := a.amortYears.getD (fin 0)
  let periods := mul amortYears (fin 12)
  let monthlyRate := div interestRate (fin 12)
  let principalWithPremium :=
    mul loanAmountEffective (add (fin 1) (a.cmhcPremiumRate.getD (fin 0)))
  let monthlyDebtService := pmtJ monthlyRate periods principalWithPremium
  let debtServiceAnnual := mul monthlyDebtService (fin 12)
  let cashFlow := sub noiOngoing debtServiceAnnual
  let cashOnCash := if gtJ equityRequired (fin 0) then div cashFlow equityRequired else fin 0
  let dscr := if gtJ debtServiceAnnual (fin 0) then div noiOngoing debtServiceAnnual else fin 0
  let capRate := if gtJ purchasePrice (fin 0) then div noiYear1 purchasePrice else fin 0
  { noi := noiYear1
    noiYear1 := noiYear1
    cashFlow := cashFlow
    cashOnCash := cashOnCash
    dscr := dscr
    capRate := capRate
    grossRentAnnual := grossRentAnnual
    otherIncomeAnnual := mul otherIncomeMonthly (fin 12)
    operatingExpensesAnnual := totalOpexOngoing
    operatingExpensesYear1 := totalOpexYear1
    totalIncomeAnnual := totalIncomeAnnual
    debtServiceAnnual := debtServiceAnnual
    monthlyDebtService := monthlyDebtService
    equityRequired := equityRequired
    loanAmountEffective := loanAmountEffective }


/-- Present optional JS-number fields must be finite (an absent field is
defaulted by the calculator to the finite value 0). -/
def OptFin : Option JsNum → Prop
  | none => True
  | some x => x.isFiniteJ = true

/-- The resolved interest rate must be a finite non-negative value. -/
def OptNonnegRate : Option JsNum → Prop
  | none => True
  | some (JsNum.fin q) => 0 ≤ q
  | some _ => False

/-- The resolved amortization-years value must be a finite non-negative
whole number. -/
def OptWholeYears : Option JsNum → Prop
  | none => True
  | some (JsNum.fin q) => ∃ z : ℤ, q = (z : ℚ) ∧ 0 ≤ z
  | some _ => False

/-- An assumptions record carrying `NaN` as its purchase price and benign,
finite values everywhere else. -/
def exC3nan : AssumptionsJ :=
  { purchasePrice := some .nan
    brokerFee := some (.fin 20000)
    depositPct := some (.fin 1)
    depositAmount := none
    closingRebate := .fin 0
    contingencyPct := none
    operatingExpenseTotal := none
    operatingExpenses := some []
    unitMix := some []
    otherIncomeItems := some []
    interestRate := some (.fin 0)
    amortYears := some (.fin 0)
    loanAmount := none
    cmhcPremiumRate := some (.fin 0)
    loanToValue := none }

/-- A fully finite assumptions record (the spec example scenario over JS
numbers), used to witness the amended finiteness theorem. -/
def exC3fin : AssumptionsJ :=
  { purchasePrice := some (.fin 2000000)
    brokerFee := some (.fin 20000)
    depositPct := none
    depositAmount := none
    closingRebate := .fin 0
    contingencyPct := none
    operatingExpenseTotal := none
    operatingExpenses := some [("Property Tax", .fin 24000)]
    unitMix := some [{ name := "2BR", units := .fin 8, rent := .fin 1200, bedrooms := .fin 2 }]
    otherIncomeItems := some []
    interestRate := some (.fin (1 / 20))
    amortYears := some (.fin 30)
    loanAmount := none
    cmhcPremiumRate := some (.fin 0)
    loanToValue := some (.fin (3 / 4)) }

end JsModel

open FinanceModel AppLayer

/-- Concrete scenario for the C4 witness: an explicit deposit fraction of
0 (100% loan-to-value). -/
def exC4 : Assumptions :=
  { purchasePrice := some 2000000
    brokerFee := some 20000
    depositPct := some 0
    depositAmount := none
    closingRebate := 0
    contingencyPct := none
    operatingExpenseTotal := none
    operatingExpenses := some [("Property Tax", 24000)]
    unitMix := some [{ name := "2BR", units := 8, rent := 1200, bedrooms := 2 }]
    otherIncomeItems := some []
    interestRate := some (1 / 20)
    amortYears := some 30
    loanAmount := none
    cmhcPremiumRate := some 0
    loanToValue := none }

/-- The spec's example scenario (§8): purchase price 2,000,000, broker fee
20,000, loan-to-value 0.75, interest rate 5%, 30-year amortization, one
unit type of 8 units at 1,200/month, a single operating expense
"Property Tax" = 24,000/year, no loan override, no premium. -/
def exampleScenario : Assumptions :=
  { purchasePrice := some 2000000
    brokerFee := some 20000
    depositPct := none
    depositAmount := none
    closingRebate := 0
    contingencyPct := none
    operatingExpenseTotal := none
    operatingExpenses := some [("Property Tax", 24000)]
    unitMix := some [{ name := "2BR", units := 8, rent := 1200, bedrooms := 2 }]
    otherIncomeItems := some []
    interestRate := some (1 / 20)
    amortYears := some 30
    loanAmount := none
    cmhcPremiumRate := some 0
    loanToValue := some (3 / 4) }

/-- C9 fails on the final calculator: a record with the explicit
operating-expense total 999 present and positive still gets the expense-map
sum 10 as its annual operating-expense figure. -/
def exC9 : Assumptions :=
  { purchasePrice := some 100000
    brokerFee := some 0
    depositPct := some (1 / 4)
    depositAmount := none
    closingRebate := 0
    contingencyPct := none
    operatingExpenseTotal := some 999
    operatingExpenses := some [("Repairs", 10)]
    unitMix := some []
    otherIncomeItems := some []
    interestRate := some 0
    amortYears := some 0
    loanAmount := none
    cmhcPremiumRate := some 0
    loanToValue := none }

/-- Concrete scenario for the C10 witness: a fully specified record with an
explicit deposit fraction and a conflicting loan-to-value field. -/
def exC10 : Assumptions :=
  { purchasePrice := some 2000000
    brokerFee := some 20000
    depositPct := some (1 / 4)
    depositAmount := none
    closingRebate := 0
    contingencyPct := none
    operatingExpenseTotal := none
    operatingExpenses := some [("Property Tax", 24000)]
    unitMix := some [{ name := "2BR", units := 8, rent := 1200, bedrooms := 2 }]
    otherIncomeItems := some []
    interestRate := some (1 / 20)
    amortYears := some 30
    loanAmount := none
    cmhcPremiumRate := some 0
    loanToValue := some (3 / 4) }

/-- Concrete scenario for the C8 witness: gross rent 115,200/year with a
"Management & Salaries" expense at exactly 5% of it (5,760). -/
def exC8 : Assumptions :=
  { purchasePrice := some 2000000
    brokerFee := some 20000
    depositPct := none
    depositAmount := none
    closingRebate := 0
    contingencyPct := none
    operatingExpenseTotal := none
    operatingExpenses := some [("Property Tax", 24000), ("Management & Salaries", 5760)]
    unitMix := some [{ name := "2BR", units := 8, rent := 1200, bedrooms := 2 }]
    otherIncomeItems := some []
    interestRate := some (1 / 20)
    amortYears := some 30
    loanAmount := none
    cmhcPremiumRate := some 0
    loanToValue := some (3 / 4) }


/-- The expense-map sum is insensitive to defaulting a missing map to the
empty list. -/
lemma sumOperatingExpenses_getD (o : Option (List (String × ℚ))) :
    sumOperatingExpenses o = sumOperatingExpenses (some (o.getD [])) := by
  cases o <;> rfl

/-- The cash flow returned by the final calculator is the net of its four
annualized components. -/
lemma cashFlow_eq_components (a : Assumptions) :
    (calculateMetrics a).cashFlow =
      (calculateMetrics a).grossRentAnnual + (calculateMetrics a).otherIncomeAnnual
        - (calculateMetrics a).operatingExpensesAnnual
        - (calculateMetrics a).debtServiceAnnual := by
  simp only [calculateMetrics]

/-- C1: for every assumptions record the final calculator computes the two
NOI values — Year 1 excludes the first expense entry whose lower-cased
label contains "management" or "salaries", ongoing subtracts the full
expense-map sum — and the headline `noi` and the cap-rate numerator use the
Year-1 value while `cashFlow` and `dscr` use the ongoing value. -/
theorem C1_noi_variants_and_consumers (a : Assumptions) :
    let m := calculateMetrics a
    let expenseSum := sumOperatingExpenses a.operatingExpenses
    let managementAmount :=
      ((a.operatingExpenses.getD []).find? (fun kv => isManagementKey kv.1)).elim 0 Prod.snd
    let noiYearOne := m.totalIncomeAnnual - (expenseSum - managementAmount)
    let noiOngoing := m.totalIncomeAnnual - expenseSum
    m.noi = noiYearOne ∧
    m.capRate =
      (if a.purchasePrice.getD 0 > 0 then noiYearOne / a.purchasePrice.getD 0 else 0) ∧
    m.cashFlow = noiOngoing - m.debtServiceAnnual ∧
    m.dscr = (if m.debtServiceAnnual > 0 then noiOngoing / m.debtServiceAnnual else 0) := by
  have hs := sumOperatingExpenses_getD a.operatingExpenses
  cases hfind : (a.operatingExpenses.getD []).find? (fun kv => isManagementKey kv.1) <;>
    simp [calculateMetrics, hs, hfind]

/-- C2: the monthly debt service equals the amortizing-payment function at
principal `effectiveLoan × (1 + premiumRate)`, rate `annualRate / 12` and
`amortYears × 12` periods; the annual figure is 12 times the monthly one;
and the payment function returns 0 for non-positive periods or principal,
`principal / periods` at zero rate, and the closed-form annuity value
otherwise. -/
theorem C2_debt_service_amortization (a : Assumptions) :
    let m := calculateMetrics a
    m.monthlyDebtService =
      pmt (a.interestRate.getD 0 / 12) (a.amortYears.getD 0 * 12)
        (m.loanAmountEffective * (1 + a.cmhcPremiumRate.getD 0)) ∧
    m.debtServiceAnnual = 12 * m.monthlyDebtService ∧
    (∀ rate periods principal : ℚ,
      pmt rate periods principal =
        if periods ≤ 0 ∨ principal ≤ 0 then 0
        else if rate = 0 then principal / periods
        else principal * rate * powQ (1 + rate) periods
          / (powQ (1 + rate) periods - 1)) := by
  refine ⟨rfl, ?_, fun rate periods principal => rfl⟩
  simp only [calculateMetrics]
  ring

/-- C6: the monthly projection returns exactly 12 points, for months 1-12,
all carrying the same value (the four annualized components each divided by
12 and netted), and the points sum exactly to the annual cash flow, hence
to within the relative tolerance 1e-2. -/
theorem C6_monthly_projection_consistency (a : Assumptions) :
    let pts := projectMonthlyCashFlows a
    let m := calculateMetrics a
    let monthly := m.grossRentAnnual / 12 + m.otherIncomeAnnual / 12
      - m.operatingExpensesAnnual / 12 - m.debtServiceAnnual / 12
    pts.length = 12 ∧
    pts.map MonthlyCashFlowPoint.monthIndex = [1, 2, 3, 4, 5, 6, 7, 8, 9, 10, 11, 12] ∧
    pts.map MonthlyCashFlowPoint.cashFlow = List.replicate 12 monthly ∧
    |pts.foldl (fun sum p => sum + p.cashFlow) 0 - m.cashFlow| ≤ 1 / 100 * |m.cashFlow| := by
  have hr : List.range 12 = [0, 1, 2, 3, 4, 5, 6, 7, 8, 9, 10, 11] := rfl
  refine ⟨?_, ?_, ?_, ?_⟩
  · simp [projectMonthlyCashFlows]
  · simp [projectMonthlyCashFlows, hr]
  · simp [projectMonthlyCashFlows, hr, List.replicate]
  · have hsum : (projectMonthlyCashFlows a).foldl (fun sum p => sum + p.cashFlow) 0
        - (calculateMetrics a).cashFlow = 0 := by
      have hcf := cashFlow_eq_components a
      simp only [projectMonthlyCashFlows, hr, List.map, List.foldl]
      rw [hcf]
      ring
    rw [hsum]
    have hpos : (0 : ℚ) ≤ 1 / 100 * |(calculateMetrics a).cashFlow| := by positivity
    simp only [abs_zero]
    exact hpos

/-- C4: the three ratio metrics are guarded: cash-on-cash divides the cash
flow by the required equity only when the latter is positive and is 0
otherwise, DSCR divides the ongoing NOI by the annual debt service only
when positive, cap rate divides the Year-1 NOI by the purchase price only
when positive; in particular a deposit fraction resolving to 0 forces
cash-on-cash to be exactly 0. -/
theorem C4_guarded_ratios (a : Assumptions) :
    let m := calculateMetrics a
    let expenseSum := sumOperatingExpenses a.operatingExpenses
    let managementAmount :=
      ((a.operatingExpenses.getD []).find? (fun kv => isManagementKey kv.1)).elim 0 Prod.snd
    let noiOngoing := m.totalIncomeAnnual - expenseSum
    let noiYearOne := m.totalIncomeAnnual - (expenseSum - managementAmount)
    let resolvedDeposit :=
      clamp (a.depositPct.getD (1 - clamp (a.loanToValue.getD (1 - a.depositPct.getD 0)) 0 1)) 0 1
    m.cashOnCash = (if m.equityRequired > 0 then m.cashFlow / m.equityRequired else 0) ∧
    m.dscr = (if m.debtServiceAnnual > 0 then noiOngoing / m.debtServiceAnnual else 0) ∧
    m.capRate =
      (if a.purchasePrice.getD 0 > 0 then noiYearOne / a.purchasePrice.getD 0 else 0) ∧
    (resolvedDeposit = 0 → m.cashOnCash = 0) := by
  have hs := sumOperatingExpenses_getD a.operatingExpenses
  refine ⟨?_, ?_, ?_, ?_⟩
  · rfl
  · cases hfind : (a.operatingExpenses.getD []).find? (fun kv => isManagementKey kv.1) <;>
      simp [calculateMetrics, hs, hfind]
  · cases hfind : (a.operatingExpenses.getD []).find? (fun kv => isManagementKey kv.1) <;>
      simp [calculateMetrics, hs, hfind]
  · intro hdep
    simp [calculateMetrics, hdep]

/-- C4 witness: on `exC4`, whose deposit fraction resolves to 0, the
cash-on-cash metric is exactly 0. -/
theorem C4_guarded_ratios_witness : (calculateMetrics exC4).cashOnCash = 0 :=
  (C4_guarded_ratios exC4).2.2.2 (by norm_num [exC4, clamp])

/-- Replacing the interest-rate and unit-mix fields by their defaulted
resolutions leaves the calculator's output unchanged. -/
lemma calculateMetrics_resolved (a : Assumptions) :
    calculateMetrics
      { a with interestRate := some (a.interestRate.getD 0), unitMix := some (a.unitMix.getD []) }
      = calculateMetrics a := by
  simp [calculateMetrics]

/-- C7: for strictly positive step sizes and any selected metric, the
center cell of the sensitivity matrix — row and column index ⌊N/2⌋ of the
odd grid size N = 5, i.e. zero rent shift and zero interest shift — equals
the same metric of the unperturbed assumptions exactly. -/
theorem C7_sensitivity_center (a : Assumptions) (rentStepPercent interestStepBps : ℚ)
    (valueSelector : FinanceMetrics → ℚ)
    (_hrent : 0 < rentStepPercent) (_hint : 0 < interestStepBps) :
    ((buildSensitivityMatrix a rentStepPercent interestStepBps valueSelector).getD
        (sensitivityAxisCount / 2) []).getD (sensitivityAxisCount / 2) 0
      = valueSelector (calculateMetrics a) := by
  have h5 : List.range sensitivityAxisCount = [0, 1, 2, 3, 4] := rfl
  have hhalf : sensitivityAxisCount / 2 = 2 := rfl
  simp only [buildSensitivityMatrix, interestShifts, rentShifts, h5, hhalf,
    List.map_cons, List.map_nil]
  norm_num [List.getD]
  rw [calculateMetrics_resolved]

/-- C7 witness: on the concrete scenario `exC4` with both step sizes 1 and
the cash-flow selector, the center cell reproduces the unperturbed cash
flow. -/
theorem C7_sensitivity_center_witness :
    ((buildSensitivityMatrix exC4 1 1 FinanceMetrics.cashFlow).getD
        (sensitivityAxisCount / 2) []).getD (sensitivityAxisCount / 2) 0
      = (calculateMetrics exC4).cashFlow :=
  C7_sensitivity_center exC4 1 1 FinanceMetrics.cashFlow (by norm_num) (by norm_num)

/-- The example scenario has no management/salaries expense entry. -/
lemma exampleScenario_no_management :
    ([("Property Tax", (24000 : ℚ))].find? (fun kv => isManagementKey kv.1)) = none := by
  decide

/-- `powQ` agrees with the monoid power at the exponent 360. -/
lemma powQ_at_360 (b : ℚ) : powQ b 360 = b ^ (360 : ℕ) := by
  simp [powQ, Rat.den_ofNat, Rat.num_ofNat]

/-- The example scenario's monthly debt service in closed form: the annuity
payment on 1,515,000 at the monthly rate 1/240 over 360 periods. -/
lemma exampleScenario_mds :
    (calculateMetrics exampleScenario).monthlyDebtService
      = 1515000 * (1 / 240) * (241 / 240 : ℚ) ^ (360 : ℕ)
        / ((241 / 240 : ℚ) ^ (360 : ℕ) - 1) := by
  simp only [calculateMetrics, exampleScenario, pmt, clamp, sumOperatingExpenses,
    Option.getD_some, Option.getD_none, exampleScenario_no_management]
  norm_num [powQ_at_360]

/-- The example scenario's cash flow is its NOI of 91,200 less twelve
monthly debt-service payments. -/
lemma exampleScenario_cf :
    (calculateMetrics exampleScenario).cashFlow
      = 91200 - (calculateMetrics exampleScenario).monthlyDebtService * 12 := by
  simp only [calculateMetrics, exampleScenario, pmt, clamp, sumOperatingExpenses,
    Option.getD_some, Option.getD_none, exampleScenario_no_management]
  norm_num [powQ_at_360]

/-- Rational bounds on the example scenario's annuity payment. -/
lemma exampleScenario_mds_bounds :
    (813275 / 100 : ℚ) < 1515000 * (1 / 240) * (241 / 240 : ℚ) ^ (360 : ℕ)
        / ((241 / 240 : ℚ) ^ (360 : ℕ) - 1)
    ∧ 1515000 * (1 / 240) * (241 / 240 : ℚ) ^ (360 : ℕ)
        / ((241 / 240 : ℚ) ^ (360 : ℕ) - 1) < (813290 / 100 : ℚ) := by
  constructor <;> norm_num

/-- C5 fails on its cash-flow figure: on the spec's example scenario the
computed cash flow is about −6,394, more than 100 away from the claimed
≈ −6,596 (the other claimed figures are reproduced to within 1, see the
amended theorem). -/
theorem C5_example_cashflow_counterexample :
    ¬ |(calculateMetrics exampleScenario).cashFlow + 6596| ≤ 100 := by
  have hb := exampleScenario_mds_bounds
  rw [exampleScenario_cf, exampleScenario_mds, abs_le]
  intro h
  have h2 := h.2
  linarith [hb.1, hb.2]

/-- C5 amended: on the example scenario the calculator returns gross rent
115,200, required equity 505,000, effective loan 1,515,000, monthly debt
service within 1 of 8,133, NOI 91,200, and cash flow within 1 of −6,394
(equal to 91,200 minus twelve monthly payments; the spec's −6,596 is an
arithmetic slip, as even 91,200 − 8,133 × 12 = −6,396). -/
theorem C5_amended_example_scenario :
    (calculateMetrics exampleScenario).grossRentAnnual = 115200 ∧
    (calculateMetrics exampleScenario).equityRequired = 505000 ∧
    (calculateMetrics exampleScenario).loanAmountEffective = 1515000 ∧
    |(calculateMetrics exampleScenario).monthlyDebtService - 8133| < 1 ∧
    (calculateMetrics exampleScenario).noi = 91200 ∧
    |(calculateMetrics exampleScenario).cashFlow + 6394| < 1 := by
  have hb := exampleScenario_mds_bounds
  refine ⟨?_, ?_, ?_, ?_, ?_, ?_⟩
  · simp only [calculateMetrics, exampleScenario, clamp, sumOperatingExpenses,
      Option.getD_some, Option.getD_none, exampleScenario_no_management]
    norm_num
  · simp only [calculateMetrics, exampleScenario, clamp, sumOperatingExpenses,
      Option.getD_some, Option.getD_none, exampleScenario_no_management]
    norm_num
  · simp only [calculateMetrics, exampleScenario, clamp, sumOperatingExpenses,
      Option.getD_some, Option.getD_none, exampleScenario_no_management]
    norm_num
  · rw [exampleScenario_mds, abs_lt]
    constructor <;> linarith [hb.1, hb.2]
  · simp only [calculateMetrics, exampleScenario, clamp, sumOperatingExpenses,
      Option.getD_some, Option.getD_none, exampleScenario_no_management]
    norm_num
  · rw [exampleScenario_cf, exampleScenario_mds, abs_lt]
    constructor <;> linarith [hb.1, hb.2]

/-- C9 counterexample: on `exC9` the explicit positive total 999 is ignored
by the final `calculateMetrics`, which reports the summed map instead. -/
theorem C9_override_ignored_counterexample :
    exC9.operatingExpenseTotal = some 999 ∧ (0 : ℚ) < 999 ∧
    (calculateMetrics exC9).operatingExpensesAnnual = 10 ∧
    (calculateMetrics exC9).operatingExpensesAnnual ≠ 999 := by
  refine ⟨rfl, by norm_num, ?_, ?_⟩ <;>
    simp [calculateMetrics, exC9, sumOperatingExpenses]

/-- C9 amended: the superseded first calculator uses a positive explicit
operating-expense total as an override of the summed map, but the final
calculator always reports the sum of the expense map, ignoring the
explicit total. -/
theorem C9_amended_expense_total_handling (a : Assumptions) :
    (calculateMetrics a).operatingExpensesAnnual =
      sumOperatingExpenses a.operatingExpenses ∧
    (calculateMetricsV1 a).operatingExpensesAnnual =
      (if a.operatingExpenseTotal.getD (sumOperatingExpenses a.operatingExpenses) > 0
       then a.operatingExpenseTotal.getD (sumOperatingExpenses a.operatingExpenses)
       else sumOperatingExpenses a.operatingExpenses) := by
  have hs := sumOperatingExpenses_getD a.operatingExpenses
  constructor
  · simp [calculateMetrics, hs]
  · simp [calculateMetricsV1, hs]

/-- C10: when a deposit fraction is explicitly supplied, the loan-to-value
field has no influence: changing it leaves every output field of the final
calculator unchanged. -/
theorem C10_ltv_shadowed_by_deposit (a : Assumptions) (ltv : Option ℚ) (d : ℚ)
    (h : a.depositPct = some d) :
    calculateMetrics { a with loanToValue := ltv } = calculateMetrics a := by
  simp [calculateMetrics, h]

/-- C10 witness: replacing the loan-to-value 3/4 of `exC10` by 9/10 leaves
the metrics record unchanged, since the deposit fraction 1/4 is supplied. -/
theorem C10_ltv_shadowed_by_deposit_witness :
    calculateMetrics { exC10 with loanToValue := some (9 / 10) } = calculateMetrics exC10 :=
  C10_ltv_shadowed_by_deposit exC10 (some (9 / 10)) (1 / 4) rfl

/-- When exactly one element of a list satisfies `p`, and `q` implies `p`,
a `find?` by `q` that the element satisfies returns that element. -/
lemma find?_of_filter_eq_singleton {α : Type} (p q : α → Bool) (l : List α) (e : α)
    (himp : ∀ x, q x = true → p x = true) (hq : q e = true)
    (hf : l.filter p = [e]) : l.find? q = some e := by
  induction l with
  | nil => simp at hf
  | cons x t ih =>
    by_cases hpx : p x = true
    · rw [List.filter_cons, if_pos hpx] at hf
      obtain ⟨hxe, ht⟩ := List.cons_eq_cons.mp hf
      subst hxe
      rw [List.find?_cons_of_pos _ hq]
    · have hqx : ¬ q x = true := fun h => hpx (himp x h)
      rw [List.filter_cons, if_neg hpx] at hf
      rw [List.find?_cons_of_neg _ (by simpa using hqx)]
      exact ih hf

/-- The fold inside `derivePercentExpenseValues` only acts on the entries
whose normalized label is a percent category. -/
lemma derive_foldl_filter (l : List (String × ℚ)) (g : ℚ) (init : List (String × ℚ)) :
    l.foldl
      (fun result kv =>
        if percentageExpenseLabels.contains (normalizeExpenseLabel kv.1) then
          recordSet result (normalizeExpenseLabel kv.1) (kv.2 / g * 100)
        else result) init
    = (l.filter (fun kv => percentageExpenseLabels.contains (normalizeExpenseLabel kv.1))).foldl
        (fun result kv => recordSet result (normalizeExpenseLabel kv.1) (kv.2 / g * 100)) init := by
  induction l generalizing init with
  | nil => rfl
  | cons x t ih =>
    by_cases hx : percentageExpenseLabels.contains (normalizeExpenseLabel x.1) = true
    · rw [List.filter_cons, if_pos hx]
      simp only [List.foldl_cons, hx, if_pos]
      exact ih _
    · rw [List.filter_cons, if_neg hx]
      simp only [List.foldl_cons, hx, Bool.false_eq_true, if_false]
      exact ih _

/-- C8: for an assumptions record whose expense map carries exactly one
percent-category entry, at X percent of the positive annualized gross rent
R, reconciliation writes nothing (the map and the `changed` flag are
unchanged), deriving percentages afterwards returns exactly X for that
category, and a second reconciliation with unchanged rent and percent again
writes nothing. -/
theorem C8_percent_roundtrip (a : Assumptions) (label : String) (X R : ℚ)
    (exps : List (String × ℚ))
    (hexp : a.operatingExpenses = some exps)
    (hR : computeGrossRentAnnual a = R) (hRpos : 0 < R)
    (hcat : percentageExpenseLabels.contains (normalizeExpenseLabel label) = true)
    (hfilter : exps.filter
        (fun kv => percentageExpenseLabels.contains (normalizeExpenseLabel kv.1))
      = [(label, X / 100 * R)]) :
    reconcileDollarsFromPercentages exps R [(normalizeExpenseLabel label, X)] = (exps, false) ∧
    (derivePercentExpenseValues a).find?
        (fun kv => kv.1 == normalizeExpenseLabel label) = some (normalizeExpenseLabel label, X) ∧
    reconcileDollarsFromPercentages
        (reconcileDollarsFromPercentages exps R [(normalizeExpenseLabel label, X)]).1 R
        [(normalizeExpenseLabel label, X)]
      = ((reconcileDollarsFromPercentages exps R [(normalizeExpenseLabel label, X)]).1, false) := by
  have hRle : ¬ (R ≤ 0) := not_le.mpr hRpos
  have hfind : exps.find?
      (fun kv => normalizeExpenseLabel kv.1 == normalizeExpenseLabel label)
      = some (label, X / 100 * R) := by
    refine find?_of_filter_eq_singleton
      (fun kv => percentageExpenseLabels.contains (normalizeExpenseLabel kv.1))
      (fun kv => normalizeExpenseLabel kv.1 == normalizeExpenseLabel label)
      exps (label, X / 100 * R) ?_ ?_ hfilter
    · intro x hx
      have hxeq : normalizeExpenseLabel x.1 = normalizeExpenseLabel label := by
        simpa using hx
      show percentageExpenseLabels.contains (normalizeExpenseLabel x.1) = true
      rw [hxeq]
      exact hcat
    · simp
  have hrec : reconcileDollarsFromPercentages exps R [(normalizeExpenseLabel label, X)]
      = (exps, false) := by
    simp only [reconcileDollarsFromPercentages, List.isEmpty_cons, Bool.false_or,
      decide_eq_true_eq, hRle, decide_eq_false, List.foldl_cons, List.foldl_nil, hfind]
    norm_num
  refine ⟨hrec, ?_, by rw [hrec]; exact hrec⟩
  have hderive : derivePercentExpenseValues a
      = [(normalizeExpenseLabel label, X / 100 * R / R * 100)] := by
    rw [derivePercentExpenseValues]
    rw [hexp]
    simp only [Option.getD_some, hR, if_neg hRle]
    rw [derive_foldl_filter, hfilter]
    simp only [List.foldl_cons, List.foldl_nil, recordSet, List.any_nil, List.append_nil,
      Bool.false_eq_true, if_false, List.nil_append]
  rw [hderive]
  rw [List.find?_cons_of_pos _ (by simp)]
  have : X / 100 * R / R * 100 = X := by
    field_simp
    ring
  rw [this]

/-- C8 witness: the round trip on `exC8` at 5% of gross rent 115,200. -/
theorem C8_percent_roundtrip_witness :
    reconcileDollarsFromPercentages [("Property Tax", 24000), ("Management & Salaries", 5760)]
        115200 [(normalizeExpenseLabel "Management & Salaries", 5)]
      = ([("Property Tax", 24000), ("Management & Salaries", 5760)], false) ∧
    (derivePercentExpenseValues exC8).find?
        (fun kv => kv.1 == normalizeExpenseLabel "Management & Salaries")
      = some (normalizeExpenseLabel "Management & Salaries", 5) ∧
    reconcileDollarsFromPercentages
        (reconcileDollarsFromPercentages [("Property Tax", 24000), ("Management & Salaries", 5760)]
            115200 [(normalizeExpenseLabel "Management & Salaries", 5)]).1
        115200 [(normalizeExpenseLabel "Management & Salaries", 5)]
      = ((reconcileDollarsFromPercentages [("Property Tax", 24000), ("Management & Salaries", 5760)]
            115200 [(normalizeExpenseLabel "Management & Salaries", 5)]).1, false) :=
  C8_percent_roundtrip exC8 "Management & Salaries" 5 115200
    [("Property Tax", 24000), ("Management & Salaries", 5760)]
    rfl
    (by norm_num [computeGrossRentAnnual, exC8])
    (by norm_num)
    (by decide)
    (by
      have h1 : decide (normalizeExpenseLabel "Property Tax" ∈ percentageExpenseLabels) = false := by
        decide
      have h2 : decide
          (normalizeExpenseLabel "Management & Salaries" ∈ percentageExpenseLabels) = true := by
        decide
      simp [List.filter, h1, h2]
      norm_num)

namespace JsModel

/-- A JS number is finite exactly when it is a `fin` value. -/
lemma isFiniteJ_iff (x : JsNum) : x.isFiniteJ = true ↔ ∃ q, x = JsNum.fin q := by
  cases x <;> simp [JsNum.isFiniteJ]

/-- A present-finite optional field resolves (with the default 0) to a
finite value. -/
lemma optFin_resolve {o : Option JsNum} (h : OptFin o) :
    ∃ q, o.getD (JsNum.fin 0) = JsNum.fin q := by
  cases o with
  | none => exact ⟨0, rfl⟩
  | some x => exact (isFiniteJ_iff x).mp h

/-- A present-finite optional field resolves, with any finite default, to a
finite value. -/
lemma optFin_resolveD {o : Option JsNum} (h : OptFin o) (d : ℚ) :
    ∃ q, o.getD (JsNum.fin d) = JsNum.fin q := by
  cases o with
  | none => exact ⟨d, rfl⟩
  | some x =>
    obtain ⟨q, hq⟩ := (isFiniteJ_iff x).mp h
    exact ⟨q, hq⟩

/-- A well-formed interest-rate field resolves to a finite non-negative
value. -/
lemma optNonnegRate_resolve {o : Option JsNum} (h : OptNonnegRate o) :
    ∃ q, o.getD (JsNum.fin 0) = JsNum.fin q ∧ 0 ≤ q := by
  cases o with
  | none => exact ⟨0, rfl, le_refl 0⟩
  | some x =>
    cases x with
    | fin q => exact ⟨q, rfl, h⟩
    | nan => exact absurd h not_false
    | inf => exact absurd h not_false
    | ninf => exact absurd h not_false

/-- A well-formed amortization-years field resolves to a finite
non-negative whole number. -/
lemma optWholeYears_resolve {o : Option JsNum} (h : OptWholeYears o) :
    ∃ q, o.getD (JsNum.fin 0) = JsNum.fin q ∧ ∃ z : ℤ, q = (z : ℚ) ∧ 0 ≤ z := by
  cases o with
  | none => exact ⟨0, rfl, 0, by norm_num⟩
  | some x =>
    cases x with
    | fin q => exact ⟨q, rfl, h⟩
    | nan => exact absurd h not_false
    | inf => exact absurd h not_false
    | ninf => exact absurd h not_false

/-- JS addition of finite values is the rational addition. -/
lemma add_fin (a b : ℚ) : JsNum.add (.fin a) (.fin b) = .fin (a + b) := rfl

/-- JS multiplication of finite values is the rational multiplication. -/
lemma mul_fin (a b : ℚ) : JsNum.mul (.fin a) (.fin b) = .fin (a * b) := rfl

/-- JS subtraction of finite values is the rational subtraction. -/
lemma sub_fin (a b : ℚ) : JsNum.sub (.fin a) (.fin b) = .fin (a - b) := by
  simp [JsNum.sub, JsNum.add, JsNum.neg, sub_eq_add_neg]

/-- Clamping a finite value between finite bounds is finite. -/
lemma clampJ_fin (v lo hi : ℚ) :
    JsNum.clampJ (.fin v) (.fin lo) (.fin hi) = .fin (min (max v lo) hi) := rfl

/-- `Math.max` of finite values is the rational maximum. -/
lemma maxJ_fin (a b : ℚ) : JsNum.maxJ (.fin a) (.fin b) = .fin (max a b) := rfl

/-- JS division of a finite value by a non-zero finite value is the
rational division. -/
lemma div_fin (a b : ℚ) (hb : b ≠ 0) : JsNum.div (.fin a) (.fin b) = .fin (a / b) := by
  simp [JsNum.div, hb]

/-- A fold of JS additions of finite values starting from a finite value is
finite. -/
lemma foldl_add_fin {α : Type} (f : α → JsNum) (l : List α)
    (h : ∀ x ∈ l, (f x).isFiniteJ = true) (q : ℚ) :
    ∃ r, l.foldl (fun sum x => JsNum.add sum (f x)) (JsNum.fin q) = JsNum.fin r := by
  induction l generalizing q with
  | nil => exact ⟨q, rfl⟩
  | cons x t ih =>
    obtain ⟨v, hv⟩ := (isFiniteJ_iff _).mp (h x (by simp))
    simp only [List.foldl_cons, hv, add_fin]
    exact ih (fun y hy => h y (by simp [hy])) _

/-- The calculator's guarded divisions stay finite for finite arguments. -/
lemma guard_div_fin (n d : ℚ) :
    (if JsNum.gtJ (.fin d) (.fin 0) then JsNum.div (.fin n) (.fin d) else .fin 0).isFiniteJ
      = true := by
  by_cases h : 0 < d
  · rw [if_pos (by simp [JsNum.gtJ, JsNum.ltJ, h]), div_fin n d h.ne.symm]
    rfl
  · rw [if_neg (by simp [JsNum.gtJ, JsNum.ltJ, h])]
    rfl

/-- The JS amortizing payment on a finite principal at a finite
non-negative rate over a whole number of periods is finite. -/
lemma pmtJ_fin (r P pr : ℚ) (hr : 0 ≤ r) (hP : ∃ z : ℤ, P = (z : ℚ) ∧ 0 ≤ z) :
    ∃ v, pmtJ (.fin r) (.fin P) (.fin pr) = JsNum.fin v := by
  obtain ⟨z, hz, hz0⟩ := hP
  unfold pmtJ
  by_cases hPle : P ≤ 0
  · rw [if_pos]
    · exact ⟨0, rfl⟩
    · simp [JsNum.leJ, hPle]
  · by_cases hprle : pr ≤ 0
    · rw [if_pos]
      · exact ⟨0, rfl⟩
      · simp [JsNum.leJ, hPle, hprle]
    · have hPpos : 0 < P := lt_of_not_le hPle
      rw [if_neg (by simp [JsNum.leJ, hPle, hprle])]
      by_cases hr0 : r = 0
      · rw [if_pos (by rw [hr0])]
        exact ⟨pr / P, div_fin pr P hPpos.ne.symm⟩
      · rw [if_neg (by simp [hr0])]
        have hrpos : 0 < r := lt_of_le_of_ne hr (Ne.symm hr0)
        have hzpos : 0 < z := by exact_mod_cast hz ▸ hPpos
        have hden : P.den = 1 := by rw [hz]; exact Rat.den_intCast z
        have hnum : P.num = z := by rw [hz]; exact Rat.num_intCast z
        have hP0 : P ≠ 0 := hPpos.ne.symm
        have hfac : JsNum.powJ (.fin (1 + r)) (.fin P)
            = .fin ((1 + r) ^ P.num.toNat) := by
          rw [JsNum.powJ]
          rw [if_neg hP0, if_pos hden]
          rw [if_pos (by rw [hnum]; exact le_of_lt hzpos)]
        have hn0 : P.num.toNat ≠ 0 := by
          rw [hnum]
          exact Int.toNat_eq_zero.not.mpr (by omega)
        have hgt1 : 1 < (1 + r) ^ P.num.toNat := one_lt_pow₀ (by linarith) hn0
        have hne : (1 + r) ^ P.num.toNat - 1 ≠ 0 := by
          intro hcontra
          rw [sub_eq_zero] at hcontra
          rw [hcontra] at hgt1
          exact lt_irrefl 1 hgt1
        simp only [add_fin]
        rw [hfac, mul_fin, mul_fin, sub_fin, div_fin _ _ hne]
        exact ⟨_, rfl⟩

/-- C3 fails as stated: on `exC3nan`, whose purchase price is `NaN`, the
calculator throws no exception but returns `NaN` in its `equityRequired`
field — the output is not composed of finite numbers. -/
theorem C3_nan_propagates_counterexample :
    (calculateMetricsJ exC3nan).equityRequired = JsNum.nan ∧
    JsNum.isFiniteJ ((calculateMetricsJ exC3nan).equityRequired) = false := by
  constructor <;>
    simp [calculateMetricsJ, exC3nan, JsNum.add, JsNum.mul, JsNum.isFiniteJ]

/-- C3 amended: the calculator throws no exception and every numeric field
of the returned record is finite, provided the numeric inputs are finite,
the interest rate is non-negative, and the amortization years are a
non-negative whole number; malformed inputs such as `NaN` can instead
propagate into output fields (see the counterexample). -/
theorem C3_amended_finite_for_wellformed_inputs (a : AssumptionsJ)
    (hpp : OptFin a.purchasePrice) (hbf : OptFin a.brokerFee)
    (hdp : OptFin a.depositPct) (hltv : OptFin a.loanToValue)
    (hloan : OptFin a.loanAmount) (hprem : OptFin a.cmhcPremiumRate)
    (hunits : ∀ u ∈ a.unitMix.getD [], u.units.isFiniteJ = true ∧ u.rent.isFiniteJ = true)
    (hoth : ∀ i ∈ a.otherIncomeItems.getD [],
      i.units.isFiniteJ = true ∧ i.usage.isFiniteJ = true ∧ i.monthlyAmount.isFiniteJ = true)
    (hexp : ∀ kv ∈ a.operatingExpenses.getD [], (kv : String × JsNum).2.isFiniteJ = true)
    (hrate : OptNonnegRate a.interestRate) (hyears : OptWholeYears a.amortYears) :
    let m := calculateMetricsJ a
    m.noi.isFiniteJ = true ∧ m.noiYear1.isFiniteJ = true ∧ m.cashFlow.isFiniteJ = true ∧
    m.cashOnCash.isFiniteJ = true ∧ m.dscr.isFiniteJ = true ∧ m.capRate.isFiniteJ = true ∧
    m.grossRentAnnual.isFiniteJ = true ∧ m.otherIncomeAnnual.isFiniteJ = true ∧
    m.operatingExpensesAnnual.isFiniteJ = true ∧ m.operatingExpensesYear1.isFiniteJ = true ∧
    m.totalIncomeAnnual.isFiniteJ = true ∧ m.debtServiceAnnual.isFiniteJ = true ∧
    m.monthlyDebtService.isFiniteJ = true ∧ m.equityRequired.isFiniteJ = true ∧
    m.loanAmountEffective.isFiniteJ = true := by
  obtain ⟨pp, hpp1⟩ := optFin_resolveD hpp 0
  obtain ⟨bf, hbf1⟩ := optFin_resolveD hbf 0
  obtain ⟨dp0, hdp0⟩ := optFin_resolveD hdp 0
  obtain ⟨lv, hlv1⟩ := optFin_resolveD hltv (1 - dp0)
  obtain ⟨dp2, hdp2⟩ := optFin_resolveD hdp (1 - min (max lv 0) 1)
  obtain ⟨pr, hpr1⟩ := optFin_resolveD hprem 0
  obtain ⟨la, hla1⟩ := optFin_resolveD hloan (pp + bf - (pp + bf) * min (max dp2 0) 1)
  obtain ⟨ir, hir1, hir0⟩ := optNonnegRate_resolve hrate
  obtain ⟨ay, hay1, hayz⟩ := optWholeYears_resolve hyears
  obtain ⟨g, hg⟩ : ∃ r, (a.unitMix.getD []).foldl
      (fun sum unit => JsNum.add sum (JsNum.mul unit.units unit.rent)) (JsNum.fin 0)
      = JsNum.fin r := by
    refine foldl_add_fin (fun u : UnitAssumptionJ => JsNum.mul u.units u.rent) _ ?_ 0
    intro u hu
    obtain ⟨q1, h1⟩ := (isFiniteJ_iff _).mp (hunits u hu).1
    obtain ⟨q2, h2⟩ := (isFiniteJ_iff _).mp (hunits u hu).2
    show (JsNum.mul u.units u.rent).isFiniteJ = true
    rw [h1, h2, mul_fin]
    rfl
  obtain ⟨oi, hoi⟩ : ∃ r, (a.otherIncomeItems.getD []).foldl
      (fun sum item => JsNum.add sum (JsNum.mul (JsNum.mul item.units item.usage)
        item.monthlyAmount)) (JsNum.fin 0)
      = JsNum.fin r := by
    refine foldl_add_fin
      (fun i : OtherIncomeItemJ => JsNum.mul (JsNum.mul i.units i.usage) i.monthlyAmount)
      _ ?_ 0
    intro i hi
    obtain ⟨q1, h1⟩ := (isFiniteJ_iff _).mp (hoth i hi).1
    obtain ⟨q2, h2⟩ := (isFiniteJ_iff _).mp (hoth i hi).2.1
    obtain ⟨q3, h3⟩ := (isFiniteJ_iff _).mp (hoth i hi).2.2
    show (JsNum.mul (JsNum.mul i.units i.usage) i.monthlyAmount).isFiniteJ = true
    rw [h1, h2, h3, mul_fin, mul_fin]
    rfl
  obtain ⟨ex, hex⟩ : ∃ r, sumOperatingExpensesJ (some (a.operatingExpenses.getD []))
      = JsNum.fin r := by
    refine foldl_add_fin (fun kv : String × JsNum => kv.2) _ ?_ 0
    intro kv hkv
    show kv.2.isFiniteJ = true
    exact hexp kv hkv
  obtain ⟨mg, hmg⟩ : ∃ r, (match (a.operatingExpenses.getD []).find?
      (fun kv => FinanceModel.isManagementKey kv.1) with
      | some kv => kv.2
      | none => JsNum.fin 0) = JsNum.fin r := by
    cases hfind : (a.operatingExpenses.getD []).find?
        (fun kv => FinanceModel.isManagementKey kv.1) with
    | none => exact ⟨0, rfl⟩
    | some kv =>
      obtain ⟨q, hq⟩ := (isFiniteJ_iff _).mp (hexp kv (List.mem_of_find?_eq_some hfind))
      exact ⟨q, hq⟩
  have h12 : JsNum.div (JsNum.fin ir) (JsNum.fin 12) = JsNum.fin (ir / 12) :=
    div_fin ir 12 (by norm_num)
  obtain ⟨z, hz, hz0⟩ := hayz
  obtain ⟨mds, hmds⟩ : ∃ v, pmtJ (JsNum.fin (ir / 12)) (JsNum.fin (ay * 12))
      (JsNum.fin (max la 0 * (1 + pr))) = JsNum.fin v := by
    refine pmtJ_fin (ir / 12) (ay * 12) (max la 0 * (1 + pr)) (by positivity) ?_
    refine ⟨z * 12, ?_, by omega⟩
    rw [hz]
    push_cast
    ring
  simp only [calculateMetricsJ, hpp1, hbf1, hdp0, hdp2, hpr1, hla1, hir1, hay1, hg, hoi,
    hex, hmg, h12, hmds, hlv1, add_fin, mul_fin, sub_fin, clampJ_fin, maxJ_fin]
  refine ⟨rfl, rfl, rfl, guard_div_fin _ _, guard_div_fin _ _, guard_div_fin _ _,
    rfl, rfl, rfl, rfl, rfl, rfl, rfl, rfl, rfl⟩

/-- C3 amended witness: on the fully finite record `exC3fin` every numeric
field of the returned metrics is finite. -/
theorem C3_amended_finite_witness :
    let m := calculateMetricsJ exC3fin
    m.noi.isFiniteJ = true ∧ m.noiYear1.isFiniteJ = true ∧ m.cashFlow.isFiniteJ = true ∧
    m.cashOnCash.isFiniteJ = true ∧ m.dscr.isFiniteJ = true ∧ m.capRate.isFiniteJ = true ∧
    m.grossRentAnnual.isFiniteJ = true ∧ m.otherIncomeAnnual.isFiniteJ = true ∧
    m.operatingExpensesAnnual.isFiniteJ = true ∧ m.operatingExpensesYear1.isFiniteJ = true ∧
    m.totalIncomeAnnual.isFiniteJ = true ∧ m.debtServiceAnnual.isFiniteJ = true ∧
    m.monthlyDebtService.isFiniteJ = true ∧ m.equityRequired.isFiniteJ = true ∧
    m.loanAmountEffective.isFiniteJ = true :=
  C3_amended_finite_for_wellformed_inputs exC3fin rfl rfl trivial rfl trivial rfl
    (by
      intro u hu
      simp only [exC3fin, Option.getD_some, List.mem_singleton] at hu
      subst hu
      exact ⟨rfl, rfl⟩)
    (fun i hi => absurd hi (List.not_mem_nil i))
    (by
      intro kv hkv
      simp only [exC3fin, Option.getD_some, List.mem_singleton] at hkv
      subst hkv
      rfl)
    (by show (0 : ℚ) ≤ 1 / 20; norm_num)
    ⟨30, by norm_num, by norm_num⟩

end JsModel
